import Mathlib

/-!
Verification development for the MASA-CCTDI assessment system
(`cctdi_agents.py`, `cctdi_system.py`, `auto_simu_concurrent.py`).

Each Python function relevant to the checked properties is translated to an
executable Lean definition.  External language-model calls are modelled by
oracle parameters: an oracle value describes what the model (after transport
and JSON parsing) returned on a given attempt, so theorems quantify over all
possible model behaviours.
-/

namespace CCTDI

/-! ## Response normalizer: `BaseAgent._clean_json_response`
(src/cctdi_agents.py lines 25-38)

The Python body first strips the text, then deletes one leading match of
the pattern  ^```(?:json)?\s*\n?  and one trailing match of the pattern
\n?```\s*$ , then applies strip on backticks followed by a plain strip.
We embed the two regex substitutions and the strips over `List Char`.
-/

/-- The characters of the Python `\s` class and the `str.strip` default set. -/
def pyIsSpace (c : Char) : Bool :=
  c = ' ' || c = '\t' || c = '\n' || c = '\r' || c = '\x0b' || c = '\x0c'

/-- The backtick character. -/
def backtick : Char := Char.ofNat 96

def isBacktickChar (c : Char) : Bool := c = backtick

/-- Remove the longest suffix all of whose characters satisfy `p`. -/
def dropTrailing (p : Char → Bool) (l : List Char) : List Char :=
  (l.reverse.dropWhile p).reverse

/-- Python `str.strip()` on a character list. -/
def pyStrip (l : List Char) : List Char :=
  dropTrailing pyIsSpace (l.dropWhile pyIsSpace)

/-- The Python strip of backtick characters on a character list. -/
def stripBackticks (l : List Char) : List Char :=
  dropTrailing isBacktickChar (l.dropWhile isBacktickChar)

def backtick3 : List Char := [backtick, backtick, backtick]

/-- Deleting the leading-fence pattern  ^```(?:json)?\s*\n?  : if the text begins with three
backticks, remove them, then an optional literal `json`, then the maximal
whitespace run (which subsumes the optional newline). -/
def subLeadingFence (l : List Char) : List Char :=
  if l.take 3 = backtick3 then
    let r := l.drop 3
    let r2 := if r.take 4 = ['j', 's', 'o', 'n'] then r.drop 4 else r
    r2.dropWhile pyIsSpace
  else l

def isAllSpace (l : List Char) : Bool := l.all pyIsSpace

/-- Does `\n?```\s*$` match starting exactly at the head of `l` and reach the
end of the string?  (Everything after the fence must be whitespace, which also
covers the Python rule letting the anchor match before a final newline.) -/
def trailingFenceAt (l : List Char) : Bool :=
  (decide (l.take 3 = backtick3) && isAllSpace (l.drop 3)) ||
  (decide (l.take 4 = '\n' :: backtick3) && isAllSpace (l.drop 4))

/-- Deleting the trailing-fence pattern  \n?```\s*$  : delete from the leftmost position where
the trailing-fence pattern matches through to the end of the string. -/
def subTrailingFence : List Char → List Char
  | [] => []
  | c :: t => if trailingFenceAt (c :: t) then [] else c :: subTrailingFence t

/-- The character-list body of `_clean_json_response`. -/
def cleanJsonList (l : List Char) : List Char :=
  pyStrip (stripBackticks (subTrailingFence (subLeadingFence (pyStrip l))))

/-- `BaseAgent._clean_json_response` (src/cctdi_agents.py lines 25-38).
An empty (falsy) input is returned unchanged. -/
def clean_json_response (s : String) : String :=
  if s = "" then s else String.mk (cleanJsonList s.data)

example : clean_json_response "```json\nhello\n```" = "hello" := by decide

example : clean_json_response "a```\n```" = "a" := by decide

example : clean_json_response "\n```  " = "" := by decide

example : clean_json_response "```jsx" = "jsx" := by decide

example : clean_json_response "ab`````  " = "ab" := by decide

example : clean_json_response "  `` x" = "x" := by decide

example : clean_json_response "`` \n```json\nhello" = "```json\nhello" := by decide

/-! ### Helper lemmas about `dropWhile` / `dropTrailing` -/

theorem dropWhile_head_false (p : Char → Bool) (l : List Char) :
    l.dropWhile p = [] ∨ ∃ c t, l.dropWhile p = c :: t ∧ p c = false := by
  induction l with
  | nil => exact Or.inl rfl
  | cons c t ih =>
      cases hc : p c with
      | true => simpa [List.dropWhile, hc] using ih
      | false => exact Or.inr ⟨c, t, by simp [List.dropWhile, hc], hc⟩

theorem dropWhile_of_head_false (p : Char → Bool) (c : Char) (t : List Char)
    (h : p c = false) : (c :: t).dropWhile p = c :: t := by
  simp [List.dropWhile, h]

theorem dropWhile_length_le (p : Char → Bool) (l : List Char) :
    (l.dropWhile p).length ≤ l.length := by
  induction l with
  | nil => exact Nat.le_refl 0
  | cons c t ih =>
      cases hc : p c with
      | true =>
          simp only [List.dropWhile, hc]
          exact Nat.le_trans ih (Nat.le_succ _)
      | false => simp [List.dropWhile, hc]

theorem head_false_of_dropWhile_eq (p : Char → Bool) (c : Char) (t : List Char)
    (h : (c :: t).dropWhile p = c :: t) : p c = false := by
  cases hc : p c with
  | false => rfl
  | true =>
      exfalso
      have h1 : t.dropWhile p = c :: t := by simpa [List.dropWhile, hc] using h
      have h2 := dropWhile_length_le p t
      rw [h1] at h2
      simp at h2

theorem dropWhile_idem (p : Char → Bool) (l : List Char) :
    (l.dropWhile p).dropWhile p = l.dropWhile p := by
  rcases dropWhile_head_false p l with h | ⟨c, t, h1, h2⟩
  · rw [h]; rfl
  · rw [h1]; exact dropWhile_of_head_false p c t h2

theorem dropWhile_all_false (p : Char → Bool) (l : List Char)
    (h : ∀ c ∈ l, p c = false) : l.dropWhile p = l := by
  induction l with
  | nil => rfl
  | cons c t ih =>
      rw [dropWhile_of_head_false p c t (h c (List.mem_cons_self c t))]

theorem dropTrailing_idem (p : Char → Bool) (l : List Char) :
    dropTrailing p (dropTrailing p l) = dropTrailing p l := by
  unfold dropTrailing
  rw [List.reverse_reverse, dropWhile_idem]

theorem dropTrailing_all_false (p : Char → Bool) (l : List Char)
    (h : ∀ c ∈ l, p c = false) : dropTrailing p l = l := by
  unfold dropTrailing
  rw [dropWhile_all_false p l.reverse (fun c hc => h c (List.mem_reverse.mp hc)),
    List.reverse_reverse]

theorem dropTrailing_append (p : Char → Bool) (l : List Char) :
    dropTrailing p l ++ (l.reverse.takeWhile p).reverse = l := by
  calc dropTrailing p l ++ (l.reverse.takeWhile p).reverse
      = (l.reverse.takeWhile p ++ l.reverse.dropWhile p).reverse := by
        rw [List.reverse_append]; rfl
    _ = (l.reverse).reverse := by rw [List.takeWhile_append_dropWhile]
    _ = l := List.reverse_reverse l

theorem dropWhile_dropTrailing (p : Char → Bool) (l : List Char)
    (h : l.dropWhile p = l) :
    (dropTrailing p l).dropWhile p = dropTrailing p l := by
  generalize hu : (l.reverse.takeWhile p).reverse = u at *
  cases hb : dropTrailing p l with
  | nil => rfl
  | cons d bs =>
      have hsplit := dropTrailing_append p l
      rw [hu, hb] at hsplit
      have hl : l = d :: (bs ++ u) := by rw [← hsplit]; rfl
      have hd : p d = false := by
        apply head_false_of_dropWhile_eq p d (bs ++ u)
        rw [← hl]
        exact h
      exact dropWhile_of_head_false p d bs hd

theorem pyStrip_idem (l : List Char) : pyStrip (pyStrip l) = pyStrip l := by
  unfold pyStrip
  rw [dropWhile_dropTrailing pyIsSpace (l.dropWhile pyIsSpace) (dropWhile_idem _ _),
    dropTrailing_idem]

/-! ### Backtick-free inputs pass through the fence strippers unchanged -/

theorem subLeadingFence_no_backtick (l : List Char) (h : ∀ c ∈ l, c ≠ backtick) :
    subLeadingFence l = l := by
  unfold subLeadingFence
  rw [if_neg]
  intro hne
  have hmem : backtick ∈ l.take 3 := by rw [hne]; simp [backtick3]
  exact h backtick (List.take_subset 3 l hmem) rfl

theorem trailingFenceAt_false (l : List Char) (h : ∀ c ∈ l, c ≠ backtick) :
    trailingFenceAt l = false := by
  unfold trailingFenceAt
  have h3 : decide (l.take 3 = backtick3) = false := by
    apply decide_eq_false
    intro hne
    have hmem : backtick ∈ l.take 3 := by rw [hne]; simp [backtick3]
    exact h backtick (List.take_subset 3 l hmem) rfl
  have h4 : decide (l.take 4 = '\n' :: backtick3) = false := by
    apply decide_eq_false
    intro hne
    have hmem : backtick ∈ l.take 4 := by rw [hne]; simp [backtick3]
    exact h backtick (List.take_subset 4 l hmem) rfl
  rw [h3, h4]
  rfl

theorem subTrailingFence_no_backtick (l : List Char) (h : ∀ c ∈ l, c ≠ backtick) :
    subTrailingFence l = l := by
  induction l with
  | nil => rfl
  | cons c t ih =>
      have hf := trailingFenceAt_false (c :: t) h
      have ht := ih (fun d hd => h d (List.mem_cons_of_mem c hd))
      simp [subTrailingFence, hf, ht]

theorem stripBackticks_no_backtick (l : List Char) (h : ∀ c ∈ l, c ≠ backtick) :
    stripBackticks l = l := by
  have hp : ∀ c ∈ l, isBacktickChar c = false := by
    intro c hc
    exact decide_eq_false (h c hc)
  unfold stripBackticks
  rw [dropWhile_all_false _ _ hp, dropTrailing_all_false _ _ hp]

theorem cleanJsonList_fixed (l : List Char)
    (hstrip : pyStrip l = l) (h : ∀ c ∈ l, c ≠ backtick) :
    cleanJsonList l = l := by
  unfold cleanJsonList
  rw [hstrip, subLeadingFence_no_backtick l h, subTrailingFence_no_backtick l h,
    stripBackticks_no_backtick l h, hstrip]

theorem clean_json_response_ne_empty (t : String) (h : t ≠ "") :
    clean_json_response t = String.mk (cleanJsonList t.data) := by
  unfold clean_json_response
  rw [if_neg h]

theorem pyStrip_cleanJsonList (l : List Char) :
    pyStrip (cleanJsonList l) = cleanJsonList l := by
  unfold cleanJsonList
  rw [pyStrip_idem]

/-- C8 (counterexample): the response normalizer `_clean_json_response` is not
idempotent.  On the mixed input consisting of two backticks, a space, a
newline, and then a fenced-looking tail, one pass yields a string that still
begins with a code fence, and a second pass strips it further. -/
theorem C8_clean_json_response_not_idempotent :
    clean_json_response (clean_json_response "`` \n```json\nhello") ≠
      clean_json_response "`` \n```json\nhello" := by
  decide

/-- C8 (amended): `_clean_json_response` is idempotent on every input whose
normalized form contains no backtick character — in particular on fenced or
unfenced inputs whose body is backtick-free.  (Full idempotence fails; see the
counterexample.) -/
theorem C8_clean_json_response_idempotent_of_no_backtick (s : String)
    (h : ∀ c ∈ (clean_json_response s).data, c ≠ backtick) :
    clean_json_response (clean_json_response s) = clean_json_response s := by
  by_cases hs : s = ""
  · rw [hs]; rfl
  · have hy : clean_json_response s = String.mk (cleanJsonList s.data) :=
      clean_json_response_ne_empty s hs
    by_cases hy0 : clean_json_response s = ""
    · rw [hy0]; rfl
    · have hdata : (clean_json_response s).data = cleanJsonList s.data := by
        rw [hy]
      have hstrip : pyStrip (clean_json_response s).data =
          (clean_json_response s).data := by
        rw [hdata]
        exact pyStrip_cleanJsonList s.data
      have hfix := cleanJsonList_fixed (clean_json_response s).data hstrip h
      rw [clean_json_response_ne_empty _ hy0, hfix]

/-- Witness for the amended C8 theorem at a concrete fenced input. -/
theorem C8_clean_json_response_idempotent_witness :
    (∀ c ∈ (clean_json_response "```json\nhello world\n```").data, c ≠ backtick) ∧
    clean_json_response (clean_json_response "```json\nhello world\n```") =
      clean_json_response "```json\nhello world\n```" :=
  ⟨by decide, C8_clean_json_response_idempotent_of_no_backtick _ (by decide)⟩

/-! ## Model call adapter: `BaseAgent._call_llm`
(src/cctdi_agents.py lines 40-74)

The transport layer is modelled by an oracle giving, for each 0-based attempt
index, either the completion text or the message of the raised exception.
`time.sleep` is modelled by recording the requested wait in a list.
-/

/-- The sentinel failure string returned after all attempts fail (line 72). -/
def llmSentinel (maxRetries : Nat) (lastError : Option String) : String :=
  "调用LLM时发生错误（" ++ toString maxRetries ++ "次重试后失败）: " ++
    (match lastError with
     | some e => e
     | none => "None")

/-- Loop body of `_call_llm`.  `remaining` counts the attempts left,
`attempt` is the 0-based index of the next attempt; the accumulated back-off
waits (seconds) are kept in reverse order. -/
def call_llm_go (oracle : Nat → Except String String) (maxRetries : Nat) :
    Nat → Nat → Option String → List Nat → String × List Nat
  | 0, _, lastError, waits => (llmSentinel maxRetries lastError, waits.reverse)
  | remaining + 1, attempt, _, waits =>
    match oracle attempt with
    | .ok content => (content, waits.reverse)
    | .error e =>
        if attempt < maxRetries - 1 then
          call_llm_go oracle maxRetries remaining (attempt + 1) (some e)
            (2 ^ attempt :: waits)
        else
          call_llm_go oracle maxRetries remaining (attempt + 1) (some e) waits

/-- `BaseAgent._call_llm`: up to `maxRetries` attempts, sleeping
`2 ^ attempt` seconds after each failed attempt except the last, degrading to
the sentinel string on exhaustion.  Total — it never raises. -/
def call_llm (oracle : Nat → Except String String) (maxRetries : Nat) :
    String × List Nat :=
  call_llm_go oracle maxRetries maxRetries 0 none []

/-! ## Diagnostic agent: `DiagnosticAgent.analyze_interaction_sufficiency`
(src/cctdi_agents.py lines 314-418) -/

structure DiagResult where
  sufficient : Bool
  reason : String
  recommendation : String
  confidence : ℚ
  deriving Repr, DecidableEq

structure Interaction where
  mode : String
  question : String
  deriving Repr, DecidableEq

structure UserResponse where
  content : String
  deriving Repr, DecidableEq

/-- Forced result of the 5-round hard ceiling (lines 322-328). -/
def forcedScoreResult : DiagResult :=
  { sufficient := true
    reason := "已达到最大交互轮次(5轮)，必须进行评分"
    recommendation := "score"
    confidence := 1 }

/-- Forced result of the 3-round evidence floor (lines 331-337). -/
def forcedContinueResult : DiagResult :=
  { sufficient := false
    reason := "交互轮次不足，需要至少3轮交互"
    recommendation := "continue"
    confidence := 9 / 10 }

/-- Deterministic fallback after both structured-parse attempts fail
(lines 406-418). -/
def diagFallback (n : Nat) : DiagResult :=
  { sufficient := decide (5 ≤ n)
    reason := "JSON解析失败，使用默认判断逻辑"
    recommendation := if 5 ≤ n then "score" else "continue"
    confidence := 1 / 2 }

/-- `analyze_interaction_sufficiency`.  The oracle gives, for each of the two
structured-judgment attempts, the parsed JSON result (`none` = JSON decode
error or a missing required field).  Returns the diagnostic result together
with the number of model requests issued. -/
def analyze_interaction_sufficiency (interactions : List Interaction)
    (oracle : Nat → Option DiagResult) : DiagResult × Nat :=
  if 5 ≤ interactions.length then (forcedScoreResult, 0)
  else if interactions.length < 3 then (forcedContinueResult, 0)
  else
    match oracle 0 with
    | some r => (r, 1)
    | none =>
        match oracle 1 with
        | some r => (r, 2)
        | none => (diagFallback interactions.length, 2)

/-! ## Scoring agent: `ScoringAgent.score_dimension`
(src/cctdi_agents.py lines 426-627) -/

/-- The JSON value found in the `score` field of a decoded scoring response. -/
inductive ScoreVal where
  | int (n : ℤ)
  | float (q : ℚ)
  | str (s : String)
  deriving Repr, DecidableEq

/-- Outcome of one scoring attempt after `_call_llm`, `_clean_json_response`
and `json.loads`: a JSON decode error, a decoded object missing one of the
required fields, or a decoded object carrying the required fields. -/
inductive ScoreAttempt where
  | parseFail (raw : String)
  | missingField (raw : String)
  | parsed (score : ScoreVal) (level : String) (reasoning : String)
      (confidence : ℚ) (raw : String)
  deriving Repr, DecidableEq

structure ScoringResult where
  score : ℚ
  level : String
  reasoning : String
  confidence : ℚ
  raw_result : Option String
  deriving Repr, DecidableEq

/-- The clamp `if score < 10: ... elif score > 60: ...` (lines 585-590).
The Python `<` between a string and an int raises `TypeError`, which the
surrounding `except json.JSONDecodeError` handler does not catch. -/
def clampScore : ScoreVal → Except String ℚ
  | .int n => .ok (if n < 10 then 10 else if 60 < n then 60 else (n : ℚ))
  | .float q => .ok (if q < 10 then 10 else if 60 < q then 60 else q)
  | .str _ =>
      .error "TypeError: '<' not supported between instances of 'str' and 'int'"

/-- What one loop iteration of `score_dimension` does with one attempt:
`none` means fall through to the next attempt. -/
def scoreAttemptOutcome : ScoreAttempt → Option (Except String ScoringResult)
  | .parseFail _ => none
  | .missingField _ => none
  | .parsed v lvl rsn conf _ =>
      some (match clampScore v with
            | .error e => .error e
            | .ok sc =>
                .ok { score := sc, level := lvl, reasoning := rsn,
                      confidence := conf, raw_result := none })

def rawOfAttempt : ScoreAttempt → String
  | .parseFail r => r
  | .missingField r => r
  | .parsed _ _ _ _ r => r

/-- The deterministic fallback scoring (lines 611-627): fixed score 43, level
一般, confidence 0.3, raw model text retained in `raw_result`. -/
def scoreFallback (nInteractions : Nat) (raw : String) : ScoringResult :=
  { score := 43
    level := "一般"
    reasoning := "JSON解析失败，基于交互轮次(" ++ toString nInteractions ++
      ")给出默认评分"
    confidence := 3 / 10
    raw_result := some raw }

/-- `ScoringAgent.score_dimension`: up to two structured attempts, then the
deterministic fallback.  A `TypeError` from the clamp propagates as
`Except.error`. -/
def score_dimension (nInteractions : Nat) (oracle : Nat → ScoreAttempt) :
    Except String ScoringResult :=
  match scoreAttemptOutcome (oracle 0) with
  | some r => r
  | none =>
      match scoreAttemptOutcome (oracle 1) with
      | some r => r
      | none => .ok (scoreFallback nInteractions (rawOfAttempt (oracle 1)))

/-! ## Adaptive navigator: `select_interaction_mode`
(src/cctdi_agents.py lines 201-222) -/

def isPrefixChars : List Char → List Char → Bool
  | [], _ => true
  | _ :: _, [] => false
  | a :: as, b :: bs => a = b && isPrefixChars as bs

/-- The Python substring test, needle in hay. -/
def containsSub : List Char → List Char → Bool
  | [], needle => isPrefixChars needle []
  | c :: t, needle => isPrefixChars needle (c :: t) || containsSub t needle

def hedgeWords : List String := ["不知道", "不确定", "不会", "难"]

/-- `AdaptiveNavigatorAgent.select_interaction_mode`: 鼓励/正常/追问 are the
encourage/normal/probe tones. -/
def select_interaction_mode (userResponses : List UserResponse)
    (interactionCount : Nat) : String :=
  if interactionCount = 0 then "正常"
  else
    match userResponses.getLast? with
    | none => "正常"
    | some last =>
        if last.content.length < 20 ||
            hedgeWords.any (fun w => containsSub last.content.data w.data) then
          "鼓励"
        else if 100 < last.content.length then "追问"
        else "正常"

/-! ## Session orchestrator: `CCTDIAssessmentSystem` (src/cctdi_system.py)

`system_state` and the parts of `current_work_state` that influence control
flow are embedded; the CSV conversation log and the prompt texts are outside
the checked properties.  Each call to `process_user_response` consumes a
`StepOracle` describing everything the model returns during that call.
-/

structure SystemState where
  status : String
  currentDimension : Nat
  interactions : List Interaction
  userResponses : List UserResponse
  dimensionScores : List (Nat × ScoringResult)
  interactionCount : Nat
  deriving Repr, DecidableEq

structure FinalReport where
  total_score : ℚ
  average_score : ℚ
  overall_level : String
  deriving Repr, DecidableEq

inductive StepResult where
  | error (msg : String)
  | next (question : String) (mode : String)
  | dimensionCompleted (score : ℚ) (level : String)
  | completed (report : FinalReport)
  deriving Repr, DecidableEq

/-- Round half to even (Python `round`), on rationals. -/
def roundHalfEven (q : ℚ) : ℤ :=
  let f := ⌊q⌋
  if q - f < 1 / 2 then f
  else if 1 / 2 < q - f then f + 1
  else if f % 2 = 0 then f else f + 1

/-- Python `round(x, 1)`, idealizing the binary float as an exact rational. -/
def pyRound1 (q : ℚ) : ℚ := (roundHalfEven (10 * q) : ℚ) / 10

/-- The overall-level banding cascade of `_complete_assessment`
(src/cctdi_system.py lines 399-409).  优秀/良好/一般/较差/极差 are the
excellent/good/average/poor/very-poor tiers. -/
def overall_level_of (total : ℚ) : String :=
  if 350 ≤ total then "优秀"
  else if 280 ≤ total then "良好"
  else if 210 ≤ total then "一般"
  else if 140 ≤ total then "较差"
  else "极差"

/-- `_complete_assessment` (lines 389-441): total = Σ scores over the
dimension-score table, average = total / 7 with `round(·, 1)` applied to the
reported value, overall level from the banding cascade. -/
def complete_assessment (dimensionScores : List (Nat × ScoringResult)) :
    FinalReport :=
  let total := (dimensionScores.map (fun p => p.2.score)).sum
  let average := total / 7
  { total_score := total
    average_score := pyRound1 average
    overall_level := overall_level_of total }

/-- Everything the model returns during one `process_user_response` call:
the two diagnostic parse attempts, the two scoring parse attempts, and the
text of the next generated question (first question of the next dimension on
advancement). -/
structure StepOracle where
  diag : Nat → Option DiagResult
  score : Nat → ScoreAttempt
  nextQuestion : String

/-- `_score_current_dimension` (lines 294-330) together with
`advance_to_next_dimension` / `_advance_to_next_dimension` /
`_complete_assessment`: score the current dimension, then either advance to
the next dimension (resetting the per-dimension history, first question in
正常 mode) or complete the whole assessment. -/
def score_current_dimension (s : SystemState) (o : StepOracle) :
    Except String (StepResult × SystemState) :=
  match score_dimension s.interactions.length o.score with
  | .error e => .error e
  | .ok result =>
      let scores := s.dimensionScores ++ [(s.currentDimension, result)]
      if s.currentDimension < 7 then
        .ok (StepResult.dimensionCompleted result.score result.level,
          { status := s.status
            currentDimension := s.currentDimension + 1
            interactions := [{ mode := "正常", question := o.nextQuestion }]
            userResponses := []
            dimensionScores := scores
            interactionCount := 1 })
      else
        .ok (StepResult.completed (complete_assessment scores),
          { s with status := "completed", dimensionScores := scores })

/-- `process_user_response` (src/cctdi_system.py lines 224-292). -/
def process_user_response (s : SystemState) (userInput : String)
    (o : StepOracle) : Except String (StepResult × SystemState) :=
  if s.status ≠ "running" then .ok (StepResult.error "评估未开始或已结束", s)
  else
    let s1 := { s with
      userResponses := s.userResponses ++ [{ content := userInput }] }
    let goOn : Except String (StepResult × SystemState) :=
      let mode := select_interaction_mode s1.userResponses s1.interactionCount
      .ok (StepResult.next o.nextQuestion mode,
        { s1 with
          interactions := s1.interactions ++
            [{ mode := mode, question := o.nextQuestion }]
          interactionCount := s1.interactionCount + 1 })
    if 3 ≤ s1.userResponses.length then
      let d := (analyze_interaction_sufficiency s1.interactions o.diag).1
      if d.sufficient ∧ d.recommendation = "score" then
        score_current_dimension s1 o
      else goOn
    else goOn

/-- The session state right after `start_assessment` (lines 179-222): status
running, dimension 1, one generated first question in 正常 mode. -/
def start_assessment (firstQuestion : String) : SystemState :=
  { status := "running"
    currentDimension := 1
    interactions := [{ mode := "正常", question := firstQuestion }]
    userResponses := []
    dimensionScores := []
    interactionCount := 1 }

/-! ## Shared ledger: `_save_user_score_summary`
(src/cctdi_system.py lines 456-511)

The whole existence-check + append runs while holding the global
`_USER_SCORES_LOCK`, so the write is modelled as one atomic transition on the
file state (`none` = the file does not exist yet).  A batch run is then any
sequence of such atomic transitions, in completion order.
-/

inductive LedgerLine where
  | header
  | row (userId userName : String) (dimScores : List ℚ) (total : ℚ)
  deriving Repr, DecidableEq

/-- `dimension_scores.get(dim_id, {}).get("score", 0)` (lines 472-475). -/
def lookup_dim_score (dimId : Nat) (scores : List (Nat × ScoringResult)) : ℚ :=
  match scores.find? (fun p => p.1 == dimId) with
  | some p => p.2.score
  | none => 0

/-- `_save_user_score_summary`: sessions without a user identity (falsy
`user_id` or `user_name`) skip the write entirely; otherwise, under the lock,
write the header iff the file did not exist, then append the data row. -/
def save_user_score_summary (userId userName : Option String)
    (dimensionScores : List (Nat × ScoringResult)) (totalScore : ℚ)
    (file : Option (List LedgerLine)) : Option (List LedgerLine) :=
  if userId.getD "" = "" ∨ userName.getD "" = "" then file
  else
    let dimScores :=
      (List.range 7).map (fun i => lookup_dim_score (i + 1) dimensionScores)
    let fileExists := file.isSome
    let lines := file.getD []
    some (lines ++ (if fileExists then [] else [LedgerLine.header]) ++
      [LedgerLine.row (userId.getD "") (userName.getD "") dimScores totalScore])

def headerCount (file : Option (List LedgerLine)) : Nat :=
  (file.getD []).countP (fun l => match l with | .header => true | _ => false)

def dataRowCount (file : Option (List LedgerLine)) : Nat :=
  (file.getD []).countP (fun l => match l with | .row .. => true | _ => false)

/-- The contribution of one completed session to the ledger. -/
structure SessionSummary where
  userId : String
  userName : String
  dimensionScores : List (Nat × ScoringResult)
  totalScore : ℚ

/-- The (atomic) ledger writes of a batch of completed sessions, applied in
completion order. -/
def runLedgerWrites (sessions : List SessionSummary)
    (file : Option (List LedgerLine)) : Option (List LedgerLine) :=
  sessions.foldl
    (fun f sess => save_user_score_summary (some sess.userId)
      (some sess.userName) sess.dimensionScores sess.totalScore f) file

/-! ## Theorems -/

/-- A list of `n` dummy interactions, used to instantiate round counts. -/
def intsN (n : Nat) : List Interaction :=
  (List.range n).map (fun i => { mode := "正常", question := toString i })

theorem intsN_length (n : Nat) : (intsN n).length = n := by
  simp [intsN]

/-- C5: the overall banding uses exactly the 350/280/210/140 thresholds with
`≥` comparisons; 优秀/良好/一般/较差/极差 are the excellent/good/average/
poor/very-poor tiers. -/
theorem C5_overall_level_thresholds (total : ℚ) :
    (350 ≤ total → overall_level_of total = "优秀") ∧
    (280 ≤ total ∧ total < 350 → overall_level_of total = "良好") ∧
    (210 ≤ total ∧ total < 280 → overall_level_of total = "一般") ∧
    (140 ≤ total ∧ total < 210 → overall_level_of total = "较差") ∧
    (total < 140 → overall_level_of total = "极差") := by
  unfold overall_level_of
  refine ⟨fun h => ?_, fun h => ?_, fun h => ?_, fun h => ?_, fun h => ?_⟩
  · rw [if_pos h]
  · rw [if_neg (not_le.mpr h.2), if_pos h.1]
  · rw [if_neg (not_le.mpr (h.2.trans (by norm_num))),
      if_neg (not_le.mpr h.2), if_pos h.1]
  · rw [if_neg (not_le.mpr (h.2.trans (by norm_num))),
      if_neg (not_le.mpr (h.2.trans (by norm_num))),
      if_neg (not_le.mpr h.2), if_pos h.1]
  · rw [if_neg (not_le.mpr (h.trans (by norm_num))),
      if_neg (not_le.mpr (h.trans (by norm_num))),
      if_neg (not_le.mpr (h.trans (by norm_num))),
      if_neg (not_le.mpr h)]

/-- Witness for C5 at the eight boundary totals. -/
theorem C5_overall_level_thresholds_witness :
    overall_level_of 350 = "优秀" ∧ overall_level_of 349 = "良好" ∧
    overall_level_of 280 = "良好" ∧ overall_level_of 279 = "一般" ∧
    overall_level_of 210 = "一般" ∧ overall_level_of 209 = "较差" ∧
    overall_level_of 140 = "较差" ∧ overall_level_of 139 = "极差" :=
  ⟨(C5_overall_level_thresholds 350).1 (by norm_num),
   (C5_overall_level_thresholds 349).2.1 ⟨by norm_num, by norm_num⟩,
   (C5_overall_level_thresholds 280).2.1 ⟨by norm_num, by norm_num⟩,
   (C5_overall_level_thresholds 279).2.2.1 ⟨by norm_num, by norm_num⟩,
   (C5_overall_level_thresholds 210).2.2.1 ⟨by norm_num, by norm_num⟩,
   (C5_overall_level_thresholds 209).2.2.2.1 ⟨by norm_num, by norm_num⟩,
   (C5_overall_level_thresholds 140).2.2.2.1 ⟨by norm_num, by norm_num⟩,
   (C5_overall_level_thresholds 139).2.2.2.2 (by norm_num)⟩

/-- The hard ceiling: at ≥ 5 rounds the diagnostic is forced to score.
(Shared helper, also used for the round-bound invariant.) -/
theorem analyze_suff_at_5 (ints : List Interaction)
    (oracle : Nat → Option DiagResult) (h : 5 ≤ ints.length) :
    analyze_interaction_sufficiency ints oracle = (forcedScoreResult, 0) := by
  unfold analyze_interaction_sufficiency
  rw [if_pos h]

/-- C6: the two forced branches of the diagnostic policy are exact and issue no
model call — at ≥ 5 rounds it forces {sufficient, score, confidence 1} and
below 3 rounds it forces {insufficient, continue, confidence 0.9}; a
structured-judgment request (≥ 1 model call) is issued only at 3 or 4
rounds. -/
theorem C6_diagnostic_forced_branches (interactions : List Interaction)
    (oracle : Nat → Option DiagResult) :
    (5 ≤ interactions.length →
      analyze_interaction_sufficiency interactions oracle =
        (forcedScoreResult, 0)) ∧
    (interactions.length < 3 →
      analyze_interaction_sufficiency interactions oracle =
        (forcedContinueResult, 0)) ∧
    (interactions.length = 3 ∨ interactions.length = 4 →
      1 ≤ (analyze_interaction_sufficiency interactions oracle).2) := by
  unfold analyze_interaction_sufficiency
  refine ⟨fun h => ?_, fun h => ?_, fun h => ?_⟩
  · rw [if_pos h]
  · rw [if_neg (by omega), if_pos h]
  · rw [if_neg (by omega), if_neg (by omega)]
    cases oracle 0 with
    | some r => simp
    | none => cases oracle 1 <;> simp

/-- Witness for C6: the ceiling branch at exactly 5 recorded rounds. -/
theorem C6_diagnostic_forced_branches_witness :
    5 ≤ (intsN 5).length ∧
    analyze_interaction_sufficiency (intsN 5) (fun _ => none) =
      (forcedScoreResult, 0) :=
  ⟨by decide,
   (C6_diagnostic_forced_branches (intsN 5) (fun _ => none)).1 (by decide)⟩

theorem analyze_suff_fallback (interactions : List Interaction)
    (oracle : Nat → Option DiagResult) (h3 : interactions.length = 3)
    (h0 : oracle 0 = none) (h1 : oracle 1 = none) :
    analyze_interaction_sufficiency interactions oracle =
      (diagFallback 3, 2) := by
  unfold analyze_interaction_sufficiency
  rw [h3, h0, h1]
  norm_num

/-- C7 (counterexample): at round 3 with both structured attempts failing,
the fallback confidence is 0.5, not 0.9 as the claim states. -/
theorem C7_diag_fallback_confidence_counterexample :
    (analyze_interaction_sufficiency (intsN 3) (fun _ => none)).1.confidence ≠
      9 / 10 := by
  rw [analyze_suff_fallback (intsN 3) (fun _ => none) (intsN_length 3) rfl rfl]
  norm_num [diagFallback]

/-- C7 (amended): at round 3, after two consecutive structural-parse
failures, the deterministic fallback recommends continue (never score), with
confidence 0.5. -/
theorem C7_diag_fallback_round3 (interactions : List Interaction)
    (oracle : Nat → Option DiagResult) (h3 : interactions.length = 3)
    (h0 : oracle 0 = none) (h1 : oracle 1 = none) :
    (analyze_interaction_sufficiency interactions oracle).1.recommendation =
      "continue" ∧
    (analyze_interaction_sufficiency interactions oracle).1.recommendation ≠
      "score" ∧
    (analyze_interaction_sufficiency interactions oracle).1.confidence =
      1 / 2 := by
  rw [analyze_suff_fallback interactions oracle h3 h0 h1]
  refine ⟨by norm_num [diagFallback], ?_, by norm_num [diagFallback]⟩
  norm_num [diagFallback]
  decide

/-- Witness for the amended C7 theorem. -/
theorem C7_diag_fallback_round3_witness :
    (analyze_interaction_sufficiency (intsN 3) (fun _ => none)).1.recommendation =
      "continue" ∧
    (analyze_interaction_sufficiency (intsN 3) (fun _ => none)).1.recommendation ≠
      "score" ∧
    (analyze_interaction_sufficiency (intsN 3) (fun _ => none)).1.confidence =
      1 / 2 :=
  C7_diag_fallback_round3 (intsN 3) (fun _ => none) (by decide) rfl rfl

/-- C3: the scoring step is not exception-free for every model output — a
decoded response whose `score` field is a JSON string reaches the Python
comparison `score < 10`, which raises `TypeError` (only `json.JSONDecodeError`
is caught), instead of clamping or falling back as the spec requires. -/
theorem C3_score_dimension_raises_on_string_score :
    score_dimension 3
      (fun _ => ScoreAttempt.parsed (ScoreVal.str "forty") "一般" "r" (1 / 2)
        "raw") =
      Except.error
        "TypeError: '<' not supported between instances of 'str' and 'int'" :=
  rfl

/-- For numeric score fields the clamp does keep the accepted score inside
[10, 60] (the part of the C3 safety property the code does satisfy). -/
theorem clampScore_numeric_in_range (v : ScoreVal)
    (h : ∀ s, v ≠ ScoreVal.str s) :
    ∃ q, clampScore v = Except.ok q ∧ 10 ≤ q ∧ q ≤ 60 := by
  cases v with
  | int n =>
      by_cases h1 : n < 10
      · exact ⟨10, by simp [clampScore, h1], by norm_num, by norm_num⟩
      · by_cases h2 : 60 < n
        · exact ⟨60, by simp [clampScore, h1, h2], by norm_num, by norm_num⟩
        · refine ⟨(n : ℚ), by simp [clampScore, h1, h2], ?_, ?_⟩
          · exact_mod_cast (by omega : (10 : ℤ) ≤ n)
          · exact_mod_cast (by omega : n ≤ (60 : ℤ))
  | float q =>
      by_cases h1 : q < 10
      · exact ⟨10, by simp [clampScore, h1], by norm_num, by norm_num⟩
      · by_cases h2 : 60 < q
        · exact ⟨60, by simp [clampScore, h1, h2], by norm_num, by norm_num⟩
        · refine ⟨q, by simp [clampScore, h1, h2], ?_, ?_⟩
          · linarith [not_lt.mp h1]
          · linarith [not_lt.mp h2]
  | str s => exact absurd rfl (h s)

/-- The all-failures run of `_call_llm`: closed form for the result and the
performed back-off waits. -/
theorem call_llm_go_all_fail (errs : Nat → String) (maxR : Nat) :
    ∀ remaining attempt lastError waits, 1 ≤ remaining →
      attempt + remaining = maxR →
      call_llm_go (fun i => Except.error (errs i)) maxR remaining attempt
        lastError waits =
        (llmSentinel maxR (some (errs (maxR - 1))),
          waits.reverse ++
            (List.range' attempt (remaining - 1)).map (fun i => 2 ^ i)) := by
  intro remaining
  induction remaining with
  | zero => intro attempt lastError waits h1 _; exact absurd h1 (by omega)
  | succ k ih =>
      intro attempt lastError waits _ h2
      rcases Nat.eq_zero_or_pos k with hk | hk
      · subst hk
        have ha : attempt = maxR - 1 := by omega
        have hlt : ¬ attempt < maxR - 1 := by omega
        simp only [call_llm_go, if_neg hlt]
        rw [ha]
        simp [List.range']
      · have hlt : attempt < maxR - 1 := by omega
        simp only [call_llm_go, if_pos hlt]
        rw [ih (attempt + 1) (some (errs attempt)) (2 ^ attempt :: waits)
          (by omega) (by omega)]
        rw [List.reverse_cons, List.append_assoc]
        congr 1
        rw [show k + 1 - 1 = (k - 1) + 1 by omega, List.range'_succ,
          List.map_cons]
        rfl

/-- C9: on a run in which every transport attempt fails, `_call_llm` performs
exactly `maxRetries` attempts, waits `2^i` seconds before retry `i`
(`i = 0, 1, …`), and returns — never raises — the sentinel failure string
embedding the last error. -/
theorem C9_call_llm_exhaustion (errs : Nat → String) (maxRetries : Nat)
    (h : 1 ≤ maxRetries) :
    call_llm (fun i => Except.error (errs i)) maxRetries =
      (llmSentinel maxRetries (some (errs (maxRetries - 1))),
        (List.range (maxRetries - 1)).map (fun i => 2 ^ i)) := by
  unfold call_llm
  rw [call_llm_go_all_fail errs maxRetries maxRetries 0 none [] h (by omega)]
  simp [List.range_eq_range']

/-- Witness for C9 at `maxRetries = 3` (the free-text default): the sentinel
embeds the last error and the waits are 1 s then 2 s. -/
theorem C9_call_llm_exhaustion_witness :
    1 ≤ 3 ∧
    call_llm (fun i => Except.error ("err" ++ toString i)) 3 =
      (llmSentinel 3 (some "err2"), [1, 2]) :=
  ⟨by decide, by
    rw [C9_call_llm_exhaustion (fun i => "err" ++ toString i) 3 (by decide)]
    decide⟩

/-- C10: submitting a response to a session whose status is not `running`
returns an error object and leaves the whole session state unchanged. -/
theorem C10_process_user_response_not_running (s : SystemState)
    (userInput : String) (o : StepOracle) (h : s.status ≠ "running") :
    process_user_response s userInput o =
      Except.ok (StepResult.error "评估未开始或已结束", s) := by
  unfold process_user_response
  rw [if_pos h]

def completedState : SystemState :=
  { status := "completed", currentDimension := 7, interactions := [],
    userResponses := [], dimensionScores := [], interactionCount := 0 }

def trivialOracle : StepOracle :=
  { diag := fun _ => none, score := fun _ => ScoreAttempt.parseFail "x",
    nextQuestion := "q" }

/-- Witness for C10 on a completed session. -/
theorem C10_process_user_response_not_running_witness :
    completedState.status ≠ "running" ∧
    process_user_response completedState "你好" trivialOracle =
      Except.ok (StepResult.error "评估未开始或已结束", completedState) :=
  ⟨by decide,
   C10_process_user_response_not_running completedState "你好" trivialOracle
     (by decide)⟩

/-- C2 (counterexample): a session without a user identity reaches completion
yet contributes no ledger row — `_save_user_score_summary` returns without
writing when `user_id` or `user_name` is falsy, so "every session that
reaches completion contributes exactly one data row" fails (the file is not
even created). -/
theorem C2_ledger_identityless_session_writes_nothing :
    save_user_score_summary none none [] 0 none = none ∧
    dataRowCount (save_user_score_summary none none [] 0 none) = 0 :=
  ⟨rfl, rfl⟩

theorem save_summary_some (uid uname : String) (huid : uid ≠ "")
    (huname : uname ≠ "") (scores : List (Nat × ScoringResult)) (total : ℚ)
    (lines : List LedgerLine) :
    save_user_score_summary (some uid) (some uname) scores total (some lines) =
      some (lines ++
        [LedgerLine.row uid uname
          ((List.range 7).map (fun i => lookup_dim_score (i + 1) scores))
          total]) := by
  unfold save_user_score_summary
  rw [if_neg (by simp [huid, huname])]
  simp

theorem save_summary_from_none (uid uname : String) (huid : uid ≠ "")
    (huname : uname ≠ "") (scores : List (Nat × ScoringResult)) (total : ℚ) :
    save_user_score_summary (some uid) (some uname) scores total none =
      some [LedgerLine.header,
        LedgerLine.row uid uname
          ((List.range 7).map (fun i => lookup_dim_score (i + 1) scores))
          total] := by
  unfold save_user_score_summary
  rw [if_neg (by simp [huid, huname])]
  simp

theorem headerCount_append_row (lines : List LedgerLine) (uid uname : String)
    (ds : List ℚ) (t : ℚ) :
    headerCount (some (lines ++ [LedgerLine.row uid uname ds t])) =
      headerCount (some lines) := by
  simp [headerCount, List.countP_append, List.countP_cons, List.countP_nil]

theorem dataRowCount_append_row (lines : List LedgerLine) (uid uname : String)
    (ds : List ℚ) (t : ℚ) :
    dataRowCount (some (lines ++ [LedgerLine.row uid uname ds t])) =
      dataRowCount (some lines) + 1 := by
  simp [dataRowCount, List.countP_append, List.countP_cons, List.countP_nil]

theorem runLedgerWrites_from_some (sessions : List SessionSummary) :
    ∀ lines : List LedgerLine,
      (∀ sess ∈ sessions, sess.userId ≠ "" ∧ sess.userName ≠ "") →
      headerCount (runLedgerWrites sessions (some lines)) =
        headerCount (some lines) ∧
      dataRowCount (runLedgerWrites sessions (some lines)) =
        dataRowCount (some lines) + sessions.length := by
  induction sessions with
  | nil => intro lines _; exact ⟨rfl, by simp [runLedgerWrites]⟩
  | cons sess rest ih =>
      intro lines hid
      have hids := hid sess (List.mem_cons_self _ _)
      have hstep : runLedgerWrites (sess :: rest) (some lines) =
          runLedgerWrites rest (some (lines ++
            [LedgerLine.row sess.userId sess.userName
              ((List.range 7).map (fun i =>
                lookup_dim_score (i + 1) sess.dimensionScores))
              sess.totalScore])) := by
        unfold runLedgerWrites
        rw [List.foldl_cons,
          save_summary_some sess.userId sess.userName hids.1 hids.2
            sess.dimensionScores sess.totalScore lines]
      rw [hstep]
      obtain ⟨ihh, ihd⟩ := ih _ (fun s hs => hid s (List.mem_cons_of_mem _ hs))
      rw [ihh, ihd, headerCount_append_row, dataRowCount_append_row]
      exact ⟨rfl, by simp; omega⟩

/-- C2 (amended): over any nonempty batch of completed sessions that all
carry a user identity (the batch executor always supplies one), the atomic
check-and-append ledger writes — the existence check and the append run
under the single `_USER_SCORES_LOCK` region, hence one transition here —
starting from a non-existent file yield exactly one header line and exactly
one data row per completed session, in any completion order.  Sessions
without an identity skip the ledger write (see the counterexample). -/
theorem C2_ledger_header_once_row_per_session (sessions : List SessionSummary)
    (hid : ∀ sess ∈ sessions, sess.userId ≠ "" ∧ sess.userName ≠ "")
    (hne : sessions ≠ []) :
    headerCount (runLedgerWrites sessions none) = 1 ∧
    dataRowCount (runLedgerWrites sessions none) = sessions.length := by
  cases sessions with
  | nil => exact absurd rfl hne
  | cons sess rest =>
      have hids := hid sess (List.mem_cons_self _ _)
      have hstep : runLedgerWrites (sess :: rest) none =
          runLedgerWrites rest (some [LedgerLine.header,
            LedgerLine.row sess.userId sess.userName
              ((List.range 7).map (fun i =>
                lookup_dim_score (i + 1) sess.dimensionScores))
              sess.totalScore]) := by
        unfold runLedgerWrites
        rw [List.foldl_cons,
          save_summary_from_none sess.userId sess.userName hids.1 hids.2
            sess.dimensionScores sess.totalScore]
      rw [hstep]
      obtain ⟨ihh, ihd⟩ := runLedgerWrites_from_some rest _
        (fun s hs => hid s (List.mem_cons_of_mem _ hs))
      rw [ihh, ihd]
      refine ⟨rfl, ?_⟩
      rw [show dataRowCount (some [LedgerLine.header,
        LedgerLine.row sess.userId sess.userName
          ((List.range 7).map (fun i =>
            lookup_dim_score (i + 1) sess.dimensionScores))
          sess.totalScore]) = 1 from rfl]
      simp [Nat.add_comm]

def sessA : SessionSummary :=
  { userId := "1", userName := "甲", dimensionScores := [], totalScore := 300 }

def sessB : SessionSummary :=
  { userId := "2", userName := "乙", dimensionScores := [], totalScore := 280 }

/-- Witness for the amended C2 theorem on a concrete two-session batch. -/
theorem C2_ledger_header_once_row_per_session_witness :
    headerCount (runLedgerWrites [sessA, sessB] none) = 1 ∧
    dataRowCount (runLedgerWrites [sessA, sessB] none) = 2 :=
  C2_ledger_header_once_row_per_session [sessA, sessB]
    (by decide) (List.cons_ne_nil _ _)

/-- Does this step outcome record a produced ScoringResult (dimension
completed or whole assessment completed)? -/
def isScoringStep : StepResult → Bool
  | .dimensionCompleted _ _ => true
  | .completed _ => true
  | _ => false

/-- C1: one orchestrator step, under the running-state invariant "one question
is pending beyond the recorded responses, and at most 4 responses were
recorded so far" (which holds after `start_assessment` and is preserved by
every step, as proved here).  With r = #recorded responses including the one
just submitted: scoring fires only when 3 ≤ r (and r ≤ 5 by the invariant),
scoring necessarily fires when r = 5, and the invariant is preserved — hence
the ScoringResult of every dimension is produced with between 3 and 5 recorded
rounds. -/
theorem C1_scoring_round_bounds (s : SystemState) (userInput : String)
    (o : StepOracle) (r : StepResult) (s' : SystemState)
    (hrun : s.status = "running")
    (hinv1 : s.interactions.length = s.userResponses.length + 1)
    (hinv2 : s.userResponses.length + 1 ≤ 5)
    (hstep : process_user_response s userInput o = Except.ok (r, s')) :
    (isScoringStep r = true → 3 ≤ s.userResponses.length + 1 ∧
      s.userResponses.length + 1 ≤ 5) ∧
    (s.userResponses.length + 1 = 5 → isScoringStep r = true) ∧
    (s'.status = "running" →
      s'.interactions.length = s'.userResponses.length + 1 ∧
      s'.userResponses.length + 1 ≤ 5) := by
  have hne : ¬ (s.status ≠ "running") := fun hh => hh hrun
  unfold process_user_response at hstep
  rw [if_neg hne] at hstep
  simp only [List.length_append, List.length_cons, List.length_nil,
    Nat.zero_add] at hstep
  by_cases h3 : 3 ≤ s.userResponses.length + 1
  · rw [if_pos h3] at hstep
    by_cases hd :
        (analyze_interaction_sufficiency s.interactions o.diag).1.sufficient =
          true ∧
        (analyze_interaction_sufficiency s.interactions o.diag).1.recommendation =
          "score"
    · rw [if_pos hd] at hstep
      unfold score_current_dimension at hstep
      dsimp only at hstep
      cases hsd : score_dimension s.interactions.length o.score with
      | error e => rw [hsd] at hstep; simp at hstep
      | ok result =>
          rw [hsd] at hstep
          dsimp only at hstep
          by_cases hdim : s.currentDimension < 7
          · rw [if_pos hdim] at hstep
            simp only [Except.ok.injEq, Prod.mk.injEq] at hstep
            obtain ⟨hr, hs'⟩ := hstep
            subst hr
            subst hs'
            refine ⟨fun _ => ⟨h3, hinv2⟩, fun _ => rfl, fun _ => ?_⟩
            simp
          · rw [if_neg hdim] at hstep
            simp only [Except.ok.injEq, Prod.mk.injEq] at hstep
            obtain ⟨hr, hs'⟩ := hstep
            subst hr
            subst hs'
            refine ⟨fun _ => ⟨h3, hinv2⟩, fun _ => rfl, fun hrun' => ?_⟩
            simp at hrun'
    · rw [if_neg hd] at hstep
      simp only [Except.ok.injEq, Prod.mk.injEq] at hstep
      obtain ⟨hr, hs'⟩ := hstep
      subst hr
      subst hs'
      have h5n : s.userResponses.length + 1 ≠ 5 := by
        intro h5
        have hlen5 : 5 ≤ s.interactions.length := by omega
        have has := analyze_suff_at_5 s.interactions o.diag hlen5
        exact hd ⟨by rw [has]; rfl, by rw [has]; rfl⟩
      refine ⟨fun hsc => by simp [isScoringStep] at hsc,
        fun h5 => absurd h5 h5n, fun _ => ?_⟩
      constructor
      · simp [hinv1]
      · simp
        omega
  · rw [if_neg h3] at hstep
    simp only [Except.ok.injEq, Prod.mk.injEq] at hstep
    obtain ⟨hr, hs'⟩ := hstep
    subst hr
    subst hs'
    refine ⟨fun hsc => by simp [isScoringStep] at hsc,
      fun h5 => absurd h5 (by omega), fun _ => ?_⟩
    constructor
    · simp [hinv1]
    · simp
      omega

/-- The state produced by `start_assessment` establishes the invariant used
in the round-bound theorem. -/
theorem start_assessment_establishes_invariant (firstQuestion : String) :
    (start_assessment firstQuestion).status = "running" ∧
    (start_assessment firstQuestion).interactions.length =
      (start_assessment firstQuestion).userResponses.length + 1 ∧
    (start_assessment firstQuestion).userResponses.length + 1 ≤ 5 :=
  ⟨rfl, rfl, by norm_num [start_assessment]⟩

def wResponses4 : List UserResponse :=
  [{ content := "a" }, { content := "b" }, { content := "c" },
   { content := "d" }]

def wState1 : SystemState :=
  { status := "running", currentDimension := 1, interactions := intsN 5,
    userResponses := wResponses4, dimensionScores := [],
    interactionCount := 5 }

def wOracle : StepOracle :=
  { diag := fun _ => none,
    score := fun _ =>
      ScoreAttempt.parsed (ScoreVal.int 50) "良好" "r" 1 "raw",
    nextQuestion := "q2" }

def wResult1 : ScoringResult :=
  { score := ((50 : ℤ) : ℚ), level := "良好", reasoning := "r",
    confidence := 1, raw_result := none }

def wState1Next : SystemState :=
  { status := "running", currentDimension := 2,
    interactions := [{ mode := "正常", question := "q2" }],
    userResponses := [],
    dimensionScores := [(1, wResult1)],
    interactionCount := 1 }

/-- Witness for C1 at a concrete 5th-round step: the forced diagnostic makes
scoring fire exactly at round 5. -/
theorem C1_scoring_round_bounds_witness :
    (isScoringStep (StepResult.dimensionCompleted ((50 : ℤ) : ℚ) "良好") =
        true →
      3 ≤ wState1.userResponses.length + 1 ∧
      wState1.userResponses.length + 1 ≤ 5) ∧
    (wState1.userResponses.length + 1 = 5 →
      isScoringStep (StepResult.dimensionCompleted ((50 : ℤ) : ℚ) "良好") =
        true) ∧
    (wState1Next.status = "running" →
      wState1Next.interactions.length = wState1Next.userResponses.length + 1 ∧
      wState1Next.userResponses.length + 1 ≤ 5) :=
  C1_scoring_round_bounds wState1 "e" wOracle
    (StepResult.dimensionCompleted ((50 : ℤ) : ℚ) "良好") wState1Next rfl
    (by decide) (by decide) rfl

/-- C4 (amended): whenever a response submission completes the assessment,
the report total is the exact sum of the recorded per-dimension scores
(one more than before the step), and the reported average is total / 7
rounded to one decimal (Python `round(·, 1)`), not the exact quotient. -/
theorem C4_total_and_average (s : SystemState) (userInput : String)
    (o : StepOracle) (rep : FinalReport) (s' : SystemState)
    (hstep : process_user_response s userInput o =
      Except.ok (StepResult.completed rep, s')) :
    rep.total_score = (s'.dimensionScores.map (fun p => p.2.score)).sum ∧
    rep.average_score = pyRound1 (rep.total_score / 7) ∧
    s'.dimensionScores.length = s.dimensionScores.length + 1 := by
  by_cases hrun : s.status ≠ "running"
  · unfold process_user_response at hstep
    rw [if_pos hrun] at hstep
    simp at hstep
  · unfold process_user_response at hstep
    rw [if_neg hrun] at hstep
    simp only [List.length_append, List.length_cons, List.length_nil,
      Nat.zero_add] at hstep
    by_cases h3 : 3 ≤ s.userResponses.length + 1
    · rw [if_pos h3] at hstep
      by_cases hd :
          (analyze_interaction_sufficiency s.interactions o.diag).1.sufficient =
            true ∧
          (analyze_interaction_sufficiency s.interactions
            o.diag).1.recommendation = "score"
      · rw [if_pos hd] at hstep
        unfold score_current_dimension at hstep
        dsimp only at hstep
        cases hsd : score_dimension s.interactions.length o.score with
        | error e => rw [hsd] at hstep; simp at hstep
        | ok result =>
            rw [hsd] at hstep
            dsimp only at hstep
            by_cases hdim : s.currentDimension < 7
            · rw [if_pos hdim] at hstep
              simp at hstep
            · rw [if_neg hdim] at hstep
              simp only [Except.ok.injEq, Prod.mk.injEq,
                StepResult.completed.injEq] at hstep
              obtain ⟨hrep, hs'⟩ := hstep
              subst hrep
              subst hs'
              refine ⟨rfl, rfl, ?_⟩
              simp
      · rw [if_neg hd] at hstep
        simp at hstep
    · rw [if_neg h3] at hstep
      simp at hstep

def simpleScore (q : ℚ) : ScoringResult :=
  { score := q, level := "一般", reasoning := "", confidence := 1,
    raw_result := none }

def cexScores : List (Nat × ScoringResult) :=
  [(1, simpleScore 43), (2, simpleScore 43), (3, simpleScore 43),
   (4, simpleScore 43), (5, simpleScore 43), (6, simpleScore 43),
   (7, simpleScore 42)]

theorem pyRound1_300_7 : pyRound1 (300 / 7 : ℚ) = 429 / 10 := by
  unfold pyRound1 roundHalfEven
  dsimp only
  have h10 : (10 : ℚ) * (300 / 7) = 3000 / 7 := by norm_num
  rw [h10]
  have hf : ⌊(3000 / 7 : ℚ)⌋ = 428 := by
    rw [Int.floor_eq_iff]
    constructor <;> norm_num
  rw [hf]
  rw [if_neg (by norm_num), if_pos (by norm_num)]
  norm_num

/-- C4 (counterexample): at total 300, the stored report average is 42.9 —
Python `round(total/7, 1)` — which is not the exact quotient 300/7. -/
theorem C4_average_rounded_counterexample :
    (complete_assessment cexScores).total_score = 300 ∧
    (complete_assessment cexScores).average_score ≠ 300 / 7 := by
  have htot : ((cexScores.map (fun p => p.2.score)).sum : ℚ) = 300 := by
    norm_num [cexScores, simpleScore]
  have hca : complete_assessment cexScores =
      { total_score := 300, average_score := pyRound1 (300 / 7),
        overall_level := overall_level_of 300 } := by
    unfold complete_assessment
    dsimp only
    rw [htot]
  rw [hca]
  refine ⟨rfl, ?_⟩
  show pyRound1 (300 / 7) ≠ 300 / 7
  rw [pyRound1_300_7]
  norm_num

def prior6 : List (Nat × ScoringResult) :=
  [(1, simpleScore 43), (2, simpleScore 43), (3, simpleScore 43),
   (4, simpleScore 43), (5, simpleScore 43), (6, simpleScore 43)]

def wState7 : SystemState :=
  { status := "running", currentDimension := 7, interactions := intsN 5,
    userResponses := wResponses4, dimensionScores := prior6,
    interactionCount := 5 }

def wOracle7 : StepOracle :=
  { diag := fun _ => none,
    score := fun _ =>
      ScoreAttempt.parsed (ScoreVal.int 42) "一般" "r" 1 "raw",
    nextQuestion := "q" }

def wResult7 : ScoringResult :=
  { score := ((42 : ℤ) : ℚ), level := "一般", reasoning := "r",
    confidence := 1, raw_result := none }

def wScores7 : List (Nat × ScoringResult) := prior6 ++ [(7, wResult7)]

def wFinalState : SystemState :=
  { status := "completed", currentDimension := 7, interactions := intsN 5,
    userResponses := wResponses4 ++ [{ content := "e" }],
    dimensionScores := wScores7, interactionCount := 5 }

/-- Witness for the amended C4 theorem on a concrete completing step. -/
theorem C4_total_and_average_witness :
    (complete_assessment wScores7).total_score =
      (wFinalState.dimensionScores.map (fun p => p.2.score)).sum ∧
    (complete_assessment wScores7).average_score =
      pyRound1 ((complete_assessment wScores7).total_score / 7) ∧
    wFinalState.dimensionScores.length = wState7.dimensionScores.length + 1 :=
  C4_total_and_average wState7 "e" wOracle7 (complete_assessment wScores7)
    wFinalState rfl

end CCTDI
